import Mathlib

/-!
Verification of the request-translation and session-lifecycle logic of the
openai-mcp repository, shallowly embedded from `src/app.ts` and `src/auth.ts`.

JavaScript strings reaching byte-level operations (base64, splitting) are
modelled as lists of byte values (`List Nat`); JSON-like dynamic objects are
modelled by a small `Json` value type.
-/

namespace OpenAIMcp

/-- A JSON-RPC correlation id: `id?: string | number` in `McpRequest`. -/
inductive ReqId where
  | str (s : String)
  | num (n : Int)
deriving DecidableEq, Repr

/-- A dynamic JSON-like value, used for the free-form result payloads the
dispatcher builds (`result`, tool schemas, content blocks). -/
inductive Json where
  | null
  | bool (b : Bool)
  | num (n : Int)
  | str (s : String)
  | arr (items : List Json)
  | obj (fields : List (String × Json))
deriving Repr

/-- The `error` object of `McpResponse`: `code: number; message: string`. -/
structure McpError where
  code : Int
  message : String
deriving DecidableEq, Repr

/-- The tool arguments read out of `request.params.arguments` by the
`tools/call` branch of `handleMcpRequest` (app.ts lines 196-204).  Every
field is optional on the wire; defaults are applied at the destructuring. -/
structure ToolArgs where
  prompt : Option String := none
  model : Option String := none
  max_tokens : Option Int := none
  max_completion_tokens : Option Int := none
  reasoning_effort : Option String := none
  verbosity : Option String := none
  use_responses_api : Option Bool := none
deriving DecidableEq, Repr

/-- The parts of the free-form `params` bag that `handleMcpRequest` reads:
`params?.name` and `params.arguments`. -/
structure McpParams where
  name : Option String := none
  arguments : Option ToolArgs := none
deriving Repr

/-- `McpRequest` from app.ts lines 5-10. -/
structure McpRequest where
  jsonrpc : Option String := none
  id : Option ReqId := none
  method : String
  params : Option McpParams := none
deriving Repr

/-- `McpResponse` from app.ts lines 12-23.  The legacy fields
(`tools`, `content`, `isError`) are never assigned by `handleMcpRequest`
and are omitted. -/
structure McpResponse where
  jsonrpc : Option String := none
  id : Option ReqId := none
  result : Option Json := none
  error : Option McpError := none
deriving Repr

/-- One message of the chat-completions `messages` array. -/
structure ChatMessage where
  role : String
  content : Option String
deriving DecidableEq, Repr

/-- The `requestOptions` object built for a chat-completions call
(app.ts lines 233-244 and 263-272).  A field that the code never assigns
is `none`, mirroring an absent key on the dynamic object. -/
structure ChatPayload where
  model : String
  messages : List ChatMessage
  reasoning_effort : Option String
  verbosity : Option String
  max_tokens : Option Int
  max_completion_tokens : Option Int
deriving DecidableEq, Repr

/-- The `responseOptions` object built for a Responses-API call
(app.ts lines 210-215): `model`, `input`, `reasoning.effort`,
`text.verbosity` — it carries no token-ceiling key at all. -/
structure ResponsesPayload where
  model : String
  input : Option String
  reasoning_effort : String
  text_verbosity : String
deriving DecidableEq, Repr

/-- One call forwarded to the upstream OpenAI client, with its payload. -/
inductive UpstreamCall where
  | responses (payload : ResponsesPayload)
  | chat (payload : ChatPayload)
deriving DecidableEq, Repr

/-- A value thrown by an upstream call: either a JS `Error` carrying a
message, or any other thrown value. -/
inductive Thrown where
  | err (message : String)
  | other
deriving DecidableEq, Repr

/-- `error instanceof Error ? error.message : 'Unknown error'`
(app.ts line 295). -/
def thrownMessage : Thrown → String
  | Thrown.err m => m
  | Thrown.other => "Unknown error"

/-- The behaviour of the upstream client: each call shape either returns an
optional text (`output_text` resp. `choices[0]?.message?.content`) or
throws. -/
structure Upstream where
  responsesCreate : ResponsesPayload → Except Thrown (Option String)
  chatCreate : ChatPayload → Except Thrown (Option String)

/-- The process-wide session: `initialized` flag and the constructed
upstream client handle (app.ts lines 25-26, 78-83). -/
structure OpenAIClientConfig where
  apiKey : String
  timeout : Nat
  maxRetries : Nat
deriving DecidableEq, Repr

/-- Session state: module-level `openai` and `initialized` of app.ts. -/
structure AppState where
  initialized : Bool
  openai : Option OpenAIClientConfig
deriving DecidableEq, Repr

/-- Errors thrown (not returned) by `handleMcpRequest`: the
use-before-initialization guard (app.ts lines 90-92), and the TypeError
raised by destructuring `request.params.arguments` when `arguments` is
absent (app.ts line 204). -/
inductive DispatchError where
  | notReady (message : String)
  | typeError
deriving DecidableEq, Repr

/-- `response.output_text || 'No response received'` — JavaScript `||`
substitutes the fallback for an absent or empty string. -/
def textOrFallback : Option String → String
  | none => "No response received"
  | some s => if s = "" then "No response received" else s

/-- The result object of the `initialize` method (app.ts lines 99-111). -/
def initializeResult : Json :=
  Json.obj [
    ("protocolVersion", Json.str "2024-11-05"),
    ("capabilities", Json.obj [
      ("tools", Json.obj []),
      ("logging", Json.obj []),
      ("prompts", Json.obj []),
      ("resources", Json.obj [])]),
    ("serverInfo", Json.obj [
      ("name", Json.str "OpenAI MCP Server"),
      ("version", Json.str "1.0.0")])]

/-- The single tool descriptor returned by `tools/list`
(app.ts lines 140-186). -/
def queryOpenaiToolJson : Json :=
  Json.obj [
    ("name", Json.str "query_openai"),
    ("description", Json.str "Query OpenAI API with a prompt and get a response"),
    ("inputSchema", Json.obj [
      ("type", Json.str "object"),
      ("properties", Json.obj [
        ("prompt", Json.obj [
          ("type", Json.str "string"),
          ("description", Json.str "The prompt to send to OpenAI")]),
        ("model", Json.obj [
          ("type", Json.str "string"),
          ("description", Json.str "The OpenAI model to use"),
          ("default", Json.str "gpt-5")]),
        ("max_tokens", Json.obj [
          ("type", Json.str "number"),
          ("description", Json.str "Maximum tokens in the response (use max_completion_tokens for GPT-5)"),
          ("default", Json.num 1000)]),
        ("max_completion_tokens", Json.obj [
          ("type", Json.str "number"),
          ("description", Json.str "Maximum completion tokens (for GPT-5 and newer models)")]),
        ("reasoning_effort", Json.obj [
          ("type", Json.str "string"),
          ("description", Json.str "Reasoning effort level for GPT-5 models"),
          ("enum", Json.arr [Json.str "minimal", Json.str "low", Json.str "medium", Json.str "high"]),
          ("default", Json.str "medium")]),
        ("verbosity", Json.obj [
          ("type", Json.str "string"),
          ("description", Json.str "Response verbosity level for GPT-5 models"),
          ("enum", Json.arr [Json.str "low", Json.str "medium", Json.str "high"]),
          ("default", Json.str "medium")]),
        ("use_responses_api", Json.obj [
          ("type", Json.str "boolean"),
          ("description", Json.str "Use Responses API for GPT-5 (recommended for best performance)"),
          ("default", Json.bool true)])]),
      ("required", Json.arr [Json.str "prompt"])])]

/-- A successful tool response: `result.content` with one text block
(app.ts lines 219-230, 248-259, 276-287). -/
def contentResponse (rid : Option ReqId) (text : String) : McpResponse :=
  { jsonrpc := some "2.0", id := rid,
    result := some (Json.obj [
      ("content", Json.arr [
        Json.obj [("type", Json.str "text"), ("text", Json.str text)]])]) }

/-- The catch branch of the tool call (app.ts lines 289-298). -/
def upstreamErrorResponse (rid : Option ReqId) (t : Thrown) : McpResponse :=
  { jsonrpc := some "2.0", id := rid,
    error := some { code := -32603,
                    message := "Error querying OpenAI: " ++ thrownMessage t } }

/-- Normalizes one upstream outcome into a response envelope. -/
def upstreamOutcome (rid : Option ReqId) (r : Except Thrown (Option String)) : McpResponse :=
  match r with
  | Except.ok out => contentResponse rid (textOrFallback out)
  | Except.error t => upstreamErrorResponse rid t

/-- Builds the chat-completions `requestOptions`: exactly one of
`max_completion_tokens` (when the caller supplied it) or `max_tokens`
is assigned (app.ts lines 240-244 and 268-272). -/
def chatPayload (model : String) (prompt : Option String)
    (eff verb : Option String) (maxTok : Int) (mct : Option Int) : ChatPayload :=
  { model := model,
    messages := [{ role := "user", content := prompt }],
    reasoning_effort := eff,
    verbosity := verb,
    max_tokens := match mct with | some _ => none | none => some maxTok,
    max_completion_tokens := mct }

/-- JavaScript `s.startsWith(pre)`, on the character sequences. -/
def strStartsWith (s pre : String) : Bool :=
  pre.data.isPrefixOf s.data

/-- The body of the `query_openai` tool call (app.ts lines 196-298), after
the argument destructuring: applies the documented defaults, selects the
call shape, performs the upstream call, and normalizes the outcome.  Also
returns the list of upstream calls made. -/
def queryOpenAI (u : Upstream) (rid : Option ReqId) (args : ToolArgs) :
    McpResponse × List UpstreamCall :=
  let prompt := args.prompt
  let model := args.model.getD "gpt-5"
  let maxTok := args.max_tokens.getD 1000
  let eff := args.reasoning_effort.getD "medium"
  let verb := args.verbosity.getD "medium"
  let useResp := args.use_responses_api.getD true
  if strStartsWith model "gpt-5" then
    if useResp then
      let p : ResponsesPayload :=
        { model := model, input := prompt,
          reasoning_effort := eff, text_verbosity := verb }
      (upstreamOutcome rid (u.responsesCreate p), [UpstreamCall.responses p])
    else
      let p := chatPayload model prompt (some eff) (some verb) maxTok args.max_completion_tokens
      (upstreamOutcome rid (u.chatCreate p), [UpstreamCall.chat p])
  else
    let p := chatPayload model prompt none none maxTok args.max_completion_tokens
    (upstreamOutcome rid (u.chatCreate p), [UpstreamCall.chat p])

/-- `request.params?.name`. -/
def reqParamsName (req : McpRequest) : Option String :=
  req.params.bind McpParams.name

/-- `request.params.arguments` (read only after the name matched). -/
def reqArguments (req : McpRequest) : Option ToolArgs :=
  req.params.bind McpParams.arguments

/-- The message of the use-before-initialization guard (app.ts line 91). -/
def notReadyMessage : String := "App not initialized. Call initializeApp() first."

/-- `handleMcpRequest` (app.ts lines 89-309), embedded with explicit state
passing: returns the thrown-or-returned response, the session state after
the call, and the list of upstream calls forwarded. -/
def handleMcpRequest (s : AppState) (u : Upstream) (req : McpRequest) :
    Except DispatchError McpResponse × AppState × List UpstreamCall :=
  if s.initialized = false then
    (Except.error (DispatchError.notReady notReadyMessage), s, [])
  else if req.method = "initialize" then
    (Except.ok { jsonrpc := some "2.0", id := req.id, result := some initializeResult }, s, [])
  else if req.method = "notifications/initialized" then
    match req.id with
    | none => (Except.ok {}, s, [])
    | some i =>
      (Except.ok { jsonrpc := some "2.0", id := some i, result := some (Json.obj []) }, s, [])
  else if req.method = "ping" then
    (Except.ok { jsonrpc := some "2.0", id := req.id,
                 result := some (Json.obj [("status", Json.str "ok")]) }, s, [])
  else if req.method = "tools/list" then
    (Except.ok { jsonrpc := some "2.0", id := req.id,
                 result := some (Json.obj [("tools", Json.arr [queryOpenaiToolJson])]) }, s, [])
  else if req.method = "tools/call" ∧ reqParamsName req = some "query_openai" then
    match reqArguments req with
    | none => (Except.error DispatchError.typeError, s, [])
    | some args =>
      (Except.ok (queryOpenAI u req.id args).1, s, (queryOpenAI u req.id args).2)
  else
    (Except.ok { jsonrpc := some "2.0", id := req.id,
                 error := some { code := -32601,
                                 message := "Unknown method: " ++ req.method } }, s, [])

/-- Number of token-ceiling keys (`max_tokens`, `max_completion_tokens`)
present on the payload object forwarded upstream.  The responses options
object (app.ts lines 210-215) carries neither key. -/
def ceilingFieldsCount : UpstreamCall → Nat
  | UpstreamCall.responses _ => 0
  | UpstreamCall.chat p =>
    (if p.max_tokens.isSome then 1 else 0) +
    (if p.max_completion_tokens.isSome then 1 else 0)

/-- A session that has completed initialization. -/
def readyState : AppState :=
  { initialized := true, openai := some { apiKey := "k", timeout := 840000, maxRetries := 1 } }

/-- The fresh, uninitialized session (app.ts lines 25-26). -/
def freshState : AppState := { initialized := false, openai := none }

/-- An upstream stub that always succeeds with a fixed text. -/
def stubUpstream : Upstream :=
  { responsesCreate := fun _ => Except.ok (some "ok"),
    chatCreate := fun _ => Except.ok (some "ok") }

/-- An upstream stub whose every call throws `Error("boom")`. -/
def throwUpstream : Upstream :=
  { responsesCreate := fun _ => Except.error (Thrown.err "boom"),
    chatCreate := fun _ => Except.error (Thrown.err "boom") }

/-- A ping request carrying a correlation id. -/
def pingReq : McpRequest := { id := some (ReqId.num 1), method := "ping" }

/-- A request with an unrecognized method name. -/
def fooBarReq : McpRequest := { id := some (ReqId.str "7"), method := "foo/bar" }

/-- A `query_openai` call supplying both token ceilings and leaving
`model` and `use_responses_api` at their defaults (`gpt-5`, `true`). -/
def bothCeilingsGpt5Req : McpRequest :=
  { id := some (ReqId.num 9), method := "tools/call",
    params := some { name := some "query_openai",
                     arguments := some { prompt := some "Hi",
                                         max_tokens := some 5,
                                         max_completion_tokens := some 7 } } }

/-- A `query_openai` call for a non-gpt-5 model supplying both ceilings. -/
def bothCeilingsGpt4Req : McpRequest :=
  { id := some (ReqId.num 3), method := "tools/call",
    params := some { name := some "query_openai",
                     arguments := some { prompt := some "Hi",
                                         model := some "gpt-4",
                                         max_tokens := some 5,
                                         max_completion_tokens := some 7 } } }

/-- The outside-world inputs of `initializeApp` (app.ts lines 63-87):
whether the environment names a secret-store entry for the API key
(Lambda mode), the outcome of `getOpenAIApiKeyFromSecrets`, and the
outcome of reading `loadConfig().openaiApiKey`. -/
structure InitEnv where
  useSecrets : Bool
  secretsApiKey : Except String String
  configApiKey : Except String String

/-- Resolves the upstream API key per deployment mode (app.ts lines 68-76);
the second component counts credential resolutions performed. -/
def resolveApiKey (env : InitEnv) : Except String String × Nat :=
  if env.useSecrets then (env.secretsApiKey, 1) else (env.configApiKey, 1)

/-- `initializeApp` (app.ts lines 63-87): early-returns when already
initialized, otherwise resolves the key, constructs the client handle
(14-minute timeout, 1 retry) and flips the flag; a resolution failure is
rethrown as an initialization error and leaves the state unchanged.
Returns the outcome, the state afterwards, and the resolution count. -/
def initializeApp (s : AppState) (env : InitEnv) :
    Except String Unit × AppState × Nat :=
  if s.initialized then (Except.ok (), s, 0)
  else
    match resolveApiKey env with
    | (Except.ok apiKey, n) =>
      (Except.ok (),
       { initialized := true,
         openai := some { apiKey := apiKey, timeout := 14 * 60 * 1000, maxRetries := 1 } },
       n)
    | (Except.error msg, n) =>
      (Except.error ("Failed to initialize app: " ++ msg), s, n)

/-- A local-mode environment whose config file yields a key. -/
def localEnv : InitEnv :=
  { useSecrets := false, secretsApiKey := Except.error "unused",
    configApiKey := Except.ok "key" }

/-- Byte values of a JavaScript string, via code points; the auth theorems
restrict the interesting strings to ASCII, where this agrees with UTF-8. -/
def strBytes (s : String) : List Nat :=
  s.data.map Char.toNat

/-- JavaScript whitespace (the `\s` class and `String.trim`): ASCII
whitespace, NBSP, Ogham space, the Zs runs, line/paragraph separators,
narrow/medium spaces, ideographic space and BOM. -/
def isJsWs (c : Char) : Bool :=
  c.toNat == 9 || c.toNat == 10 || c.toNat == 11 || c.toNat == 12 ||
  c.toNat == 13 || c.toNat == 32 || c.toNat == 160 || c.toNat == 5760 ||
  (decide (8192 ≤ c.toNat) && decide (c.toNat ≤ 8202)) ||
  c.toNat == 8232 || c.toNat == 8233 || c.toNat == 8239 ||
  c.toNat == 8287 || c.toNat == 12288 || c.toNat == 65279

/-- The `.` class of a JavaScript regex without the s flag: anything but
the four line terminators. -/
def isJsDot (c : Char) : Bool :=
  !(c.toNat == 10 || c.toNat == 13 || c.toNat == 8232 || c.toNat == 8233)

/-- Code-point values stripped by JavaScript `String.trim` — the same
WhiteSpace-plus-LineTerminator set the regex `\s` class matches
(`isJsWs`): ASCII whitespace, NBSP, Ogham space, the Zs runs,
line/paragraph separators, narrow/medium spaces, ideographic space
and BOM. -/
def isWsByte (b : Nat) : Bool :=
  b == 9 || b == 10 || b == 11 || b == 12 || b == 13 || b == 32 ||
  b == 160 || b == 5760 ||
  (decide (8192 ≤ b) && decide (b ≤ 8202)) ||
  b == 8232 || b == 8233 || b == 8239 || b == 8287 || b == 12288 ||
  b == 65279

/-- JavaScript `String.trim` on code-point values: strips leading and
trailing whitespace (auth.ts line 44). -/
def trimBytes (l : List Nat) : List Nat :=
  ((l.dropWhile isWsByte).reverse.dropWhile isWsByte).reverse

/-- JavaScript `decodedCredentials.split(':')` at the byte level
(auth.ts line 71): all segments, in order. -/
def splitOnColon : List Nat → List (List Nat)
  | [] => [[]]
  | b :: rest =>
    if b = 58 then [] :: splitOnColon rest
    else
      match splitOnColon rest with
      | seg :: segs => (b :: seg) :: segs
      | [] => [[b]]

/-- The standard base64 alphabet. -/
def b64Alphabet : List Char :=
  ['A', 'B', 'C', 'D', 'E', 'F', 'G', 'H', 'I', 'J', 'K', 'L', 'M',
   'N', 'O', 'P', 'Q', 'R', 'S', 'T', 'U', 'V', 'W', 'X', 'Y', 'Z',
   'a', 'b', 'c', 'd', 'e', 'f', 'g', 'h', 'i', 'j', 'k', 'l', 'm',
   'n', 'o', 'p', 'q', 'r', 's', 't', 'u', 'v', 'w', 'x', 'y', 'z',
   '0', '1', '2', '3', '4', '5', '6', '7', '8', '9', '+', '/']

/-- The base64 character of a six-bit value. -/
def sextetChar (n : Nat) : Char :=
  b64Alphabet.getD n 'A'

/-- The six-bit value of a base64 character, if any. -/
def charSextet (c : Char) : Option Nat :=
  b64Alphabet.findIdx? (fun x => x == c)

/-- base64 encoding of a byte list (`Buffer.toString('base64')`). -/
def b64Encode : List Nat → List Char
  | [] => []
  | [x] => [sextetChar (x / 4), sextetChar (x % 4 * 16), '=', '=']
  | [x, y] => [sextetChar (x / 4), sextetChar (x % 4 * 16 + y / 16),
               sextetChar (y % 16 * 4), '=']
  | x :: y :: z :: rest =>
    sextetChar (x / 4) :: sextetChar (x % 4 * 16 + y / 16) ::
    sextetChar (y % 16 * 4 + z / 64) :: sextetChar (z % 64) :: b64Encode rest

/-- base64 decoding (`Buffer.from(s, 'base64')`) on well-formed base64
text; text that is not well-formed base64 decodes to a prefix of its
well-formed part. -/
def b64Decode : List Char → List Nat
  | w :: x :: y :: z :: rest =>
    match charSextet w, charSextet x with
    | some a, some b =>
      if z = '=' then
        if y = '=' then [a * 4 + b / 16]
        else
          match charSextet y with
          | some c => [a * 4 + b / 16, b % 16 * 16 + c / 4]
          | none => []
      else
        match charSextet y, charSextet z with
        | some c, some d =>
          (a * 4 + b / 16) :: (b % 16 * 16 + c / 4) :: (c % 4 * 64 + d) ::
            b64Decode rest
        | _, _ => []
    | _, _ => []
  | _ => []

/-- The `\s+(.+)$` tail of the header regex, entered after one whitespace
character was consumed: extends the whitespace run greedily and captures
a nonempty line-terminator-free remainder, backtracking into trailing
whitespace exactly as the greedy regex does. -/
def captureTail : List Char → Option (List Char)
  | [] => none
  | c :: cs =>
    if isJsWs c then
      match captureTail cs with
      | some r => some r
      | none => if (c :: cs).all isJsDot then some (c :: cs) else none
    else
      if (c :: cs).all isJsDot then some (c :: cs) else none

/-- `authHeader.match(/^Basic\s+(.+)$/i)` (auth.ts line 61): the captured
base64 text, or `none` when the header does not match.  Case-insensitive
matching of ASCII letters is via `Char.toLower`; a non-ASCII character
never matches an ASCII pattern character without the u flag. -/
def matchBasicCapture : List Char → Option (List Char)
  | c1 :: c2 :: c3 :: c4 :: c5 :: rest =>
    if c1.toLower = 'b' ∧ c2.toLower = 'a' ∧ c3.toLower = 's' ∧
       c4.toLower = 'i' ∧ c5.toLower = 'c' then
      match rest with
      | c :: cs => if isJsWs c then captureTail cs else none
      | [] => none
    else none
  | _ => none

/-- `getAuthPasswordFromSecrets` (auth.ts lines 17-53), with the secret
store's outcome abstracted as the raw password value it yields: fails when
the store fails or the password field is missing or empty, otherwise
returns the stored password trimmed of whitespace. -/
def getAuthPasswordFromSecrets (store : Except Unit (List Nat)) :
    Except Unit (List Nat) :=
  match store with
  | Except.error _ => Except.error ()
  | Except.ok raw =>
    if raw = [] then Except.error () else Except.ok (trimBytes raw)

/-- The bytes of the literal `'admin'` (auth.ts line 73). -/
def adminBytes : List Nat := strBytes "admin"

/-- `validateAuthToken` (auth.ts lines 55-83): never throws — every
failure mode yields false.  The destructuring
`[username, password] = decoded.split(':')` takes the first two segments
of the colon-split; a missing second segment is `undefined`, which never
equals the stored string. -/
def validateAuthToken (authHeader : Option String)
    (store : Except Unit (List Nat)) : Bool :=
  match authHeader with
  | none => false
  | some h =>
    if h = "" then false
    else
      match matchBasicCapture h.data with
      | none => false
      | some enc =>
        let decoded := b64Decode enc
        let parts := splitOnColon decoded
        let username := parts.headD []
        let password := parts[1]?
        if username ≠ adminBytes then false
        else
          match getAuthPasswordFromSecrets store with
          | Except.error _ => false
          | Except.ok valid => password == some valid

/-- The well-formed Basic header for a password:
`"Basic " ++ base64("admin:" ++ p)` (README usage; auth tests). -/
def basicHeaderFor (p : String) : String :=
  "Basic " ++ String.mk (b64Encode (strBytes ("admin:" ++ p)))

/-- The normalized upstream outcome echoes the given id. -/
theorem upstreamOutcome_id (rid : Option ReqId) (r : Except Thrown (Option String)) :
    (upstreamOutcome rid r).id = rid := by
  unfold upstreamOutcome contentResponse upstreamErrorResponse
  split
  · rfl
  · rfl

/-- The response envelope of a `query_openai` call echoes the request id
in every branch. -/
theorem queryOpenAI_id (u : Upstream) (rid : Option ReqId) (args : ToolArgs) :
    (queryOpenAI u rid args).1.id = rid := by
  simp only [queryOpenAI]
  split
  · split
    · exact upstreamOutcome_id rid _
    · exact upstreamOutcome_id rid _
  · exact upstreamOutcome_id rid _

/-- An uninitialized session rejects every request with the guard error. -/
theorem handle_not_ready (s : AppState) (u : Upstream) (req : McpRequest)
    (h : s.initialized = false) :
    handleMcpRequest s u req =
      (Except.error (DispatchError.notReady notReadyMessage), s, []) := by
  unfold handleMcpRequest
  rw [if_pos h]

/-- On an initialized session, dispatch either returns a response or throws
the argument-destructuring TypeError — never the not-initialized error. -/
theorem handle_ready_shape (s : AppState) (u : Upstream) (req : McpRequest)
    (h : s.initialized = true) :
    (∃ resp, (handleMcpRequest s u req).1 = Except.ok resp) ∨
    (handleMcpRequest s u req).1 = Except.error DispatchError.typeError := by
  unfold handleMcpRequest
  rw [if_neg (by simp [h])]
  split
  · exact Or.inl ⟨_, rfl⟩
  · split
    · split
      · exact Or.inl ⟨_, rfl⟩
      · exact Or.inl ⟨_, rfl⟩
    · split
      · exact Or.inl ⟨_, rfl⟩
      · split
        · exact Or.inl ⟨_, rfl⟩
        · split
          · split
            · exact Or.inr rfl
            · exact Or.inl ⟨_, rfl⟩
          · exact Or.inl ⟨_, rfl⟩

/-- C9: dispatch leaves the session unchanged — the state returned by
`handleMcpRequest` is the state it was given, in every branch. -/
theorem claim_C9_dispatch_frame (s : AppState) (u : Upstream) (req : McpRequest) :
    (handleMcpRequest s u req).2.1 = s := by
  unfold handleMcpRequest
  repeat' split
  all_goals rfl

/-- C8: when the session is not initialized, every request fails with the
not-initialized error; when it is initialized, no request ever fails with
that error. -/
theorem claim_C8_ready_guard (s : AppState) (u : Upstream) (req : McpRequest) :
    (s.initialized = false →
      (handleMcpRequest s u req).1 =
        Except.error (DispatchError.notReady notReadyMessage)) ∧
    (s.initialized = true →
      ∀ m, (handleMcpRequest s u req).1 ≠
        Except.error (DispatchError.notReady m)) := by
  constructor
  · intro h
    rw [handle_not_ready s u req h]
  · intro h m
    rcases handle_ready_shape s u req h with ⟨resp, hr⟩ | hr <;> simp [hr]

/-- Witness for C8 at concrete inputs. -/
theorem claim_C8_witness :
    (handleMcpRequest freshState stubUpstream pingReq).1 =
      Except.error (DispatchError.notReady notReadyMessage) ∧
    (handleMcpRequest readyState stubUpstream pingReq).1 ≠
      Except.error (DispatchError.notReady notReadyMessage) :=
  ⟨(claim_C8_ready_guard freshState stubUpstream pingReq).1 rfl,
   (claim_C8_ready_guard readyState stubUpstream pingReq).2 rfl notReadyMessage⟩

/-- C7: a method matching none of the recognized ones yields error code
-32601 with message naming the method, the request id echoed, and no
result payload. -/
theorem claim_C7_unknown_method (s : AppState) (u : Upstream) (req : McpRequest)
    (hs : s.initialized = true)
    (h1 : req.method ≠ "initialize")
    (h2 : req.method ≠ "notifications/initialized")
    (h3 : req.method ≠ "ping")
    (h4 : req.method ≠ "tools/list")
    (h5 : ¬(req.method = "tools/call" ∧ reqParamsName req = some "query_openai")) :
    (handleMcpRequest s u req).1 =
      Except.ok { jsonrpc := some "2.0", id := req.id,
                  error := some { code := -32601,
                                  message := "Unknown method: " ++ req.method } } := by
  unfold handleMcpRequest
  rw [if_neg (by simp [hs]), if_neg h1, if_neg h2, if_neg h3, if_neg h4, if_neg h5]

/-- Witness for C7 at the method `foo/bar`. -/
theorem claim_C7_witness :
    (handleMcpRequest readyState stubUpstream fooBarReq).1 =
      Except.ok { jsonrpc := some "2.0", id := fooBarReq.id,
                  error := some { code := -32601,
                                  message := "Unknown method: " ++ fooBarReq.method } } :=
  claim_C7_unknown_method readyState stubUpstream fooBarReq rfl
    (by decide) (by decide) (by decide) (by decide) (by decide)

/-- C2: every returned response echoes the request's correlation id, and a
`notifications/initialized` request without an id gets the empty response
object (no id, no result, no error). -/
theorem claim_C2_id_echo (s : AppState) (u : Upstream) (req : McpRequest)
    (resp : McpResponse)
    (h : (handleMcpRequest s u req).1 = Except.ok resp) :
    (∀ i, req.id = some i → resp.id = some i) ∧
    (req.method = "notifications/initialized" → req.id = none →
      resp.jsonrpc = none ∧ resp.id = none ∧ resp.result = none ∧ resp.error = none) := by
  have hs : s.initialized = true := by
    cases hb : s.initialized
    · rw [handle_not_ready s u req hb] at h
      exact absurd h (by simp)
    · rfl
  have hid : resp.id = req.id := by
    unfold handleMcpRequest at h
    rw [if_neg (by simp [hs])] at h
    split at h
    · injection h with h; subst h; rfl
    · split at h
      · split at h
        · rename_i heq
          injection h with h; subst h; exact heq.symm
        · rename_i i0 heq
          injection h with h; subst h; exact heq.symm
      · split at h
        · injection h with h; subst h; rfl
        · split at h
          · injection h with h; subst h; rfl
          · split at h
            · split at h
              · exact absurd h (by simp)
              · rw [← queryOpenAI_id u req.id _, Except.ok.inj h]
            · injection h with h; subst h; rfl
  refine ⟨fun i hi => by rw [hid, hi], fun hm hnone => ?_⟩
  have h2 : (handleMcpRequest s u req).1 = Except.ok {} := by
    unfold handleMcpRequest
    rw [if_neg (by simp [hs]), if_neg (by rw [hm]; decide), if_pos hm, hnone]
  rw [h] at h2
  injection h2 with h2
  subst h2
  exact ⟨rfl, rfl, rfl, rfl⟩

/-- Witness for C2 at a ping request with id 1. -/
theorem claim_C2_witness :
    (∀ i, pingReq.id = some i →
      (McpResponse.mk (some "2.0") (some (ReqId.num 1))
        (some (Json.obj [("status", Json.str "ok")])) none).id = some i) ∧
    (pingReq.method = "notifications/initialized" → pingReq.id = none →
      (McpResponse.mk (some "2.0") (some (ReqId.num 1))
        (some (Json.obj [("status", Json.str "ok")])) none).jsonrpc = none ∧
      (McpResponse.mk (some "2.0") (some (ReqId.num 1))
        (some (Json.obj [("status", Json.str "ok")])) none).id = none ∧
      (McpResponse.mk (some "2.0") (some (ReqId.num 1))
        (some (Json.obj [("status", Json.str "ok")])) none).result = none ∧
      (McpResponse.mk (some "2.0") (some (ReqId.num 1))
        (some (Json.obj [("status", Json.str "ok")])) none).error = none) :=
  claim_C2_id_echo readyState stubUpstream pingReq
    (McpResponse.mk (some "2.0") (some (ReqId.num 1))
      (some (Json.obj [("status", Json.str "ok")])) none) rfl

/-- Every upstream call made by `query_openai` obeys: a chat-completions
payload carries exactly one token-ceiling key with `max_completion_tokens`
winning when supplied, and a Responses payload carries none. -/
theorem queryOpenAI_trace (u : Upstream) (rid : Option ReqId) (args : ToolArgs) :
    ∀ c ∈ (queryOpenAI u rid args).2,
      ceilingFieldsCount c = (match c with
        | UpstreamCall.chat _ => 1
        | UpstreamCall.responses _ => 0) ∧
      (∀ p v, c = UpstreamCall.chat p → args.max_completion_tokens = some v →
        p.max_completion_tokens = some v ∧ p.max_tokens = none) := by
  intro c hc
  simp only [queryOpenAI] at hc
  split at hc
  · split at hc
    · rw [List.mem_singleton] at hc
      subst hc
      refine ⟨rfl, ?_⟩
      intro p v hcp
      exact UpstreamCall.noConfusion hcp
    · rw [List.mem_singleton] at hc
      subst hc
      constructor
      · cases hmct : args.max_completion_tokens <;>
          simp [ceilingFieldsCount, chatPayload, hmct]
      · intro p v hcp hv
        injection hcp with hcp
        subst hcp
        simp [chatPayload, hv]
  · rw [List.mem_singleton] at hc
    subst hc
    constructor
    · cases hmct : args.max_completion_tokens <;>
        simp [ceilingFieldsCount, chatPayload, hmct]
    · intro p v hcp hv
      injection hcp with hcp
      subst hcp
      simp [chatPayload, hv]

/-- C1 counterexample: with `model` defaulting to `gpt-5` and
`use_responses_api` defaulting to true, a call supplying both
`max_tokens` and `max_completion_tokens` goes upstream through the
Responses options object, which carries zero token-ceiling fields —
not exactly one. -/
theorem claim_C1_counterexample :
    (handleMcpRequest readyState stubUpstream bothCeilingsGpt5Req).2.2 =
      [UpstreamCall.responses { model := "gpt-5", input := some "Hi",
                                reasoning_effort := "medium",
                                text_verbosity := "medium" }] ∧
    ¬ (∀ c ∈ (handleMcpRequest readyState stubUpstream bothCeilingsGpt5Req).2.2,
        ceilingFieldsCount c = 1) := by
  constructor
  · rfl
  · intro hall
    have h0 := hall (UpstreamCall.responses { model := "gpt-5", input := some "Hi",
                                              reasoning_effort := "medium",
                                              text_verbosity := "medium" })
      (List.Mem.head _)
    exact absurd h0 (by decide)

/-- C1 amended: for every `query_openai` invocation, each upstream call
through a chat-completions shape carries exactly one token-ceiling field —
`max_completion_tokens` winning whenever the caller supplied it — while a
call through the Responses shape carries neither token-ceiling field. -/
theorem claim_C1_one_ceiling_chat_only (s : AppState) (u : Upstream)
    (req : McpRequest) (args : ToolArgs)
    (hargs : reqArguments req = some args) :
    ∀ c ∈ (handleMcpRequest s u req).2.2,
      ceilingFieldsCount c = (match c with
        | UpstreamCall.chat _ => 1
        | UpstreamCall.responses _ => 0) ∧
      (∀ p v, c = UpstreamCall.chat p → args.max_completion_tokens = some v →
        p.max_completion_tokens = some v ∧ p.max_tokens = none) := by
  intro c hc
  unfold handleMcpRequest at hc
  split at hc
  · exact absurd hc (List.not_mem_nil c)
  · split at hc
    · exact absurd hc (List.not_mem_nil c)
    · split at hc
      · split at hc
        · exact absurd hc (List.not_mem_nil c)
        · exact absurd hc (List.not_mem_nil c)
      · split at hc
        · exact absurd hc (List.not_mem_nil c)
        · split at hc
          · exact absurd hc (List.not_mem_nil c)
          · split at hc
            · rw [hargs] at hc
              exact queryOpenAI_trace u req.id args c hc
            · exact absurd hc (List.not_mem_nil c)

/-- Witness for the amended C1 at a gpt-4 call supplying both ceilings. -/
theorem claim_C1_witness :
    (chatPayload "gpt-4" (some "Hi") none none 5 (some 7)).max_completion_tokens
      = some 7 ∧
    (chatPayload "gpt-4" (some "Hi") none none 5 (some 7)).max_tokens = none :=
  (claim_C1_one_ceiling_chat_only readyState stubUpstream bothCeilingsGpt4Req
      { prompt := some "Hi", model := some "gpt-4",
        max_tokens := some 5, max_completion_tokens := some 7 } rfl
      (UpstreamCall.chat (chatPayload "gpt-4" (some "Hi") none none 5 (some 7)))
      (List.Mem.head _)).2
    (chatPayload "gpt-4" (some "Hi") none none 5 (some 7)) 7 rfl rfl

/-- C6: a `query_openai` invocation whose effective model does not start
with `gpt-5` is forwarded as a single chat-completions call whose payload
has no `reasoning_effort` and no `verbosity` key: only model, messages and
one token-ceiling field. -/
theorem claim_C6_no_gpt5_fields (s : AppState) (u : Upstream)
    (req : McpRequest) (args : ToolArgs)
    (hs : s.initialized = true)
    (hm : req.method = "tools/call")
    (hname : reqParamsName req = some "query_openai")
    (hargs : reqArguments req = some args)
    (hmodel : strStartsWith (args.model.getD "gpt-5") "gpt-5" = false) :
    ∃ p : ChatPayload,
      (handleMcpRequest s u req).2.2 = [UpstreamCall.chat p] ∧
      p.model = args.model.getD "gpt-5" ∧
      p.messages = [{ role := "user", content := args.prompt }] ∧
      p.reasoning_effort = none ∧
      p.verbosity = none ∧
      ceilingFieldsCount (UpstreamCall.chat p) = 1 := by
  unfold handleMcpRequest
  rw [if_neg (by simp [hs]), if_neg (by rw [hm]; decide), if_neg (by rw [hm]; decide),
      if_neg (by rw [hm]; decide), if_neg (by rw [hm]; decide),
      if_pos ⟨hm, hname⟩, hargs]
  simp only [queryOpenAI]
  rw [if_neg (by rw [hmodel]; decide)]
  refine ⟨_, rfl, rfl, rfl, rfl, rfl, ?_⟩
  cases hmct : args.max_completion_tokens <;>
    simp [ceilingFieldsCount, chatPayload, hmct]

/-- Witness for C6 at a `gpt-4` call. -/
theorem claim_C6_witness :
    ∃ p : ChatPayload,
      (handleMcpRequest readyState stubUpstream bothCeilingsGpt4Req).2.2 =
        [UpstreamCall.chat p] ∧
      p.model = ((some "gpt-4" : Option String).getD "gpt-5") ∧
      p.messages = [{ role := "user", content := some "Hi" }] ∧
      p.reasoning_effort = none ∧
      p.verbosity = none ∧
      ceilingFieldsCount (UpstreamCall.chat p) = 1 :=
  claim_C6_no_gpt5_fields readyState stubUpstream bothCeilingsGpt4Req
    { prompt := some "Hi", model := some "gpt-4",
      max_tokens := some 5, max_completion_tokens := some 7 }
    rfl rfl rfl rfl (by decide)

/-- C3: when the upstream call throws an `Error`, the dispatcher still
returns a normal response object whose error has code -32603 and whose
message contains the upstream error's message, with the id echoed. -/
theorem claim_C3_upstream_error (s : AppState) (u : Upstream)
    (req : McpRequest) (args : ToolArgs) (m : String)
    (hs : s.initialized = true)
    (hm : req.method = "tools/call")
    (hname : reqParamsName req = some "query_openai")
    (hargs : reqArguments req = some args)
    (hr : ∀ p, u.responsesCreate p = Except.error (Thrown.err m))
    (hcc : ∀ p, u.chatCreate p = Except.error (Thrown.err m)) :
    (handleMcpRequest s u req).1 = Except.ok
      { jsonrpc := some "2.0", id := req.id, result := none,
        error := some { code := -32603,
                        message := "Error querying OpenAI: " ++ m } } ∧
    ∃ pre suf, "Error querying OpenAI: " ++ m = pre ++ m ++ suf := by
  constructor
  · unfold handleMcpRequest
    rw [if_neg (by simp [hs]), if_neg (by rw [hm]; decide), if_neg (by rw [hm]; decide),
        if_neg (by rw [hm]; decide), if_neg (by rw [hm]; decide),
        if_pos ⟨hm, hname⟩, hargs]
    simp only [queryOpenAI]
    split
    · split
      · rw [hr]; rfl
      · rw [hcc]; rfl
    · rw [hcc]; rfl
  · exact ⟨"Error querying OpenAI: ", "", by simp⟩

/-- Witness for C3 at a concrete call whose upstream always throws. -/
theorem claim_C3_witness :
    (handleMcpRequest readyState throwUpstream bothCeilingsGpt5Req).1 = Except.ok
      { jsonrpc := some "2.0", id := bothCeilingsGpt5Req.id, result := none,
        error := some { code := -32603,
                        message := "Error querying OpenAI: " ++ "boom" } } ∧
    ∃ pre suf, "Error querying OpenAI: " ++ "boom" = pre ++ "boom" ++ suf :=
  claim_C3_upstream_error readyState throwUpstream bothCeilingsGpt5Req
    { prompt := some "Hi", max_tokens := some 5, max_completion_tokens := some 7 }
    "boom" rfl rfl rfl rfl (fun _ => rfl) (fun _ => rfl)

/-- A ready session makes `initializeApp` return at once: no state change,
no credential resolution. -/
theorem initializeApp_ready (s : AppState) (env : InitEnv)
    (h : s.initialized = true) :
    initializeApp s env = (Except.ok (), s, 0) := by
  unfold initializeApp
  rw [if_pos h]

/-- A successful `initializeApp` leaves the session initialized. -/
theorem initializeApp_ok_initialized (s : AppState) (env : InitEnv)
    (h : (initializeApp s env).1 = Except.ok ()) :
    (initializeApp s env).2.1.initialized = true := by
  unfold initializeApp at h ⊢
  split at h
  · rename_i hs
    rw [if_pos hs]
    exact hs
  · rename_i hs
    rw [if_neg hs]
    split at h
    · rfl
    · exact absurd h (by simp)

/-- C5: initialization is idempotent — on a Ready session a call returns
immediately with the session unchanged and zero credential resolutions,
so a second call after a successful one is observationally a no-op. -/
theorem claim_C5_init_idempotent (s : AppState) (env env2 : InitEnv) :
    (s.initialized = true → initializeApp s env2 = (Except.ok (), s, 0)) ∧
    ((initializeApp s env).1 = Except.ok () →
      initializeApp (initializeApp s env).2.1 env2 =
        (Except.ok (), (initializeApp s env).2.1, 0)) :=
  ⟨fun h => initializeApp_ready s env2 h,
   fun h => initializeApp_ready _ env2 (initializeApp_ok_initialized s env h)⟩

/-- Witness for C5 in local mode. -/
theorem claim_C5_witness :
    initializeApp readyState localEnv = (Except.ok (), readyState, 0) ∧
    initializeApp (initializeApp freshState localEnv).2.1 localEnv =
      (Except.ok (), (initializeApp freshState localEnv).2.1, 0) :=
  ⟨(claim_C5_init_idempotent readyState localEnv localEnv).1 rfl,
   (claim_C5_init_idempotent freshState localEnv localEnv).2 rfl⟩

/-- Decoding inverts encoding on each six-bit value. -/
theorem charSextet_sextetChar : ∀ n < 64, charSextet (sextetChar n) = some n := by
  decide

/-- No base64 digit is the padding character. -/
theorem sextetChar_ne_pad : ∀ n < 64, sextetChar n ≠ '=' := by
  decide

/-- base64 decoding inverts encoding on byte lists. -/
theorem b64Decode_b64Encode : ∀ l : List Nat, (∀ b ∈ l, b < 256) →
    b64Decode (b64Encode l) = l
  | [], _ => rfl
  | [x], hl => by
    have hx : x < 256 := hl x (by simp)
    simp only [b64Encode, b64Decode]
    rw [charSextet_sextetChar (x / 4) (by omega),
        charSextet_sextetChar (x % 4 * 16) (by omega)]
    dsimp only
    simp only [if_true]
    have e1 : x / 4 * 4 + x % 4 * 16 / 16 = x := by omega
    rw [e1]
  | [x, y], hl => by
    have hx : x < 256 := hl x (by simp)
    have hy : y < 256 := hl y (by simp)
    simp only [b64Encode, b64Decode]
    rw [charSextet_sextetChar (x / 4) (by omega),
        charSextet_sextetChar (x % 4 * 16 + y / 16) (by omega)]
    dsimp only
    simp only [if_true]
    rw [if_neg (sextetChar_ne_pad (y % 16 * 4) (by omega)),
        charSextet_sextetChar (y % 16 * 4) (by omega)]
    dsimp only
    have e1 : x / 4 * 4 + (x % 4 * 16 + y / 16) / 16 = x := by omega
    have e2 : (x % 4 * 16 + y / 16) % 16 * 16 + y % 16 * 4 / 4 = y := by omega
    rw [e1, e2]
  | x :: y :: z :: rest, hl => by
    have hx : x < 256 := hl x (by simp)
    have hy : y < 256 := hl y (by simp)
    have hz : z < 256 := hl z (by simp)
    have hrest : ∀ b ∈ rest, b < 256 := fun b hb => hl b (by simp [hb])
    simp only [b64Encode, b64Decode]
    rw [charSextet_sextetChar (x / 4) (by omega),
        charSextet_sextetChar (x % 4 * 16 + y / 16) (by omega)]
    dsimp only
    rw [if_neg (sextetChar_ne_pad (z % 64) (by omega)),
        charSextet_sextetChar (y % 16 * 4 + z / 64) (by omega),
        charSextet_sextetChar (z % 64) (by omega)]
    dsimp only
    rw [b64Decode_b64Encode rest hrest]
    have e1 : x / 4 * 4 + (x % 4 * 16 + y / 16) / 16 = x := by omega
    have e2 : (x % 4 * 16 + y / 16) % 16 * 16 + (y % 16 * 4 + z / 64) / 4 = y := by omega
    have e3 : (y % 16 * 4 + z / 64) % 4 * 64 + z % 64 = z := by omega
    rw [e1, e2, e3]

/-- Every base64 digit character is a regex `.` character and not
whitespace. -/
theorem alphabet_clean : ∀ c ∈ b64Alphabet, isJsWs c = false ∧ isJsDot c = true := by
  decide

/-- Six-bit encodings land in the alphabet, out-of-range indices give the
default digit. -/
theorem sextetChar_mem (n : Nat) : sextetChar n ∈ b64Alphabet := by
  unfold sextetChar
  by_cases h : n < b64Alphabet.length
  · rw [List.getD_eq_getElem _ _ h]
    exact List.getElem_mem h
  · rw [List.getD_eq_default _ _ (by omega)]
    decide

/-- Characters produced by the encoder are `.`-class non-whitespace. -/
theorem b64Encode_chars : ∀ (l : List Nat), ∀ c ∈ b64Encode l,
    isJsWs c = false ∧ isJsDot c = true
  | [], c, hc => absurd hc (List.not_mem_nil c)
  | [x], c, hc => by
    simp only [b64Encode, List.mem_cons, List.not_mem_nil, or_false] at hc
    rcases hc with rfl | rfl | rfl | rfl
    · exact alphabet_clean _ (sextetChar_mem _)
    · exact alphabet_clean _ (sextetChar_mem _)
    · exact ⟨by decide, by decide⟩
    · exact ⟨by decide, by decide⟩
  | [x, y], c, hc => by
    simp only [b64Encode, List.mem_cons, List.not_mem_nil, or_false] at hc
    rcases hc with rfl | rfl | rfl | rfl
    · exact alphabet_clean _ (sextetChar_mem _)
    · exact alphabet_clean _ (sextetChar_mem _)
    · exact alphabet_clean _ (sextetChar_mem _)
    · exact ⟨by decide, by decide⟩
  | x :: y :: z :: rest, c, hc => by
    simp only [b64Encode, List.mem_cons] at hc
    rcases hc with rfl | rfl | rfl | rfl | hc
    · exact alphabet_clean _ (sextetChar_mem _)
    · exact alphabet_clean _ (sextetChar_mem _)
    · exact alphabet_clean _ (sextetChar_mem _)
    · exact alphabet_clean _ (sextetChar_mem _)
    · exact b64Encode_chars rest c hc

/-- The encoder output of a nonempty byte list is nonempty. -/
theorem b64Encode_ne_nil : ∀ l : List Nat, l ≠ [] → b64Encode l ≠ []
  | [], h, _ => h rfl
  | [_], _, h => by simp [b64Encode] at h
  | [_, _], _, h => by simp [b64Encode] at h
  | _ :: _ :: _ :: _, _, h => by simp [b64Encode] at h

/-- The regex tail captures a clean text whole. -/
theorem captureTail_clean (l : List Char) (hne : l ≠ [])
    (hws : ∀ c ∈ l, isJsWs c = false) (hdot : ∀ c ∈ l, isJsDot c = true) :
    captureTail l = some l := by
  cases l with
  | nil => exact absurd rfl hne
  | cons c cs =>
    simp only [captureTail]
    rw [if_neg (by simp [hws c (List.mem_cons_self c cs)])]
    rw [if_pos (List.all_eq_true.mpr hdot)]

/-- The header regex captures the base64 text of a well-formed
`Basic <credentials>` header whole. -/
theorem matchBasicCapture_clean (l : List Char) (hne : l ≠ [])
    (hws : ∀ c ∈ l, isJsWs c = false) (hdot : ∀ c ∈ l, isJsDot c = true) :
    matchBasicCapture ('B' :: 'a' :: 's' :: 'i' :: 'c' :: ' ' :: l) = some l := by
  simp only [matchBasicCapture]
  rw [if_pos (by decide), if_pos (by decide)]
  exact captureTail_clean l hne hws hdot

/-- Splitting a list around its first colon. -/
theorem splitOnColon_append (b : List Nat) :
    ∀ a : List Nat, (58 : Nat) ∉ a →
      splitOnColon (a ++ 58 :: b) = a :: splitOnColon b := by
  intro a
  induction a with
  | nil => intro _; simp [splitOnColon]
  | cons x xs ih =>
    intro ha
    have hx : ¬(x = 58) := by intro he; exact ha (by simp [he])
    have ha2 : (58 : Nat) ∉ xs := fun hm => ha (List.mem_cons_of_mem x hm)
    simp only [List.cons_append, splitOnColon, List.append_eq]
    rw [if_neg hx, ih ha2]

/-- A colon-free list splits into itself alone. -/
theorem splitOnColon_no_colon : ∀ l : List Nat, (58 : Nat) ∉ l →
    splitOnColon l = [l] := by
  intro l
  induction l with
  | nil => intro _; rfl
  | cons x xs ih =>
    intro h
    have hx : ¬(x = 58) := by intro he; exact h (by simp [he])
    simp only [splitOnColon]
    rw [if_neg hx, ih (fun hm => h (List.mem_cons_of_mem x hm))]

/-- No split segment contains a colon. -/
theorem mem_splitOnColon_no_colon : ∀ l : List Nat, ∀ seg ∈ splitOnColon l,
    (58 : Nat) ∉ seg := by
  intro l
  induction l with
  | nil =>
    intro seg hseg
    simp only [splitOnColon, List.mem_singleton] at hseg
    subst hseg
    exact List.not_mem_nil 58
  | cons x xs ih =>
    intro seg hseg
    simp only [splitOnColon] at hseg
    split at hseg
    · cases hseg with
      | head => exact List.not_mem_nil 58
      | tail _ h => exact ih seg h
    · rename_i hx
      split at hseg
      · rename_i seg0 segs heq
        cases hseg with
        | head =>
          intro hmem
          cases hmem with
          | head => exact hx rfl
          | tail _ h58 =>
            exact ih seg0 (by rw [heq]; exact List.mem_cons_self seg0 segs) h58
        | tail _ h =>
          exact ih seg (by rw [heq]; exact List.mem_cons_of_mem seg0 h)
      · rename_i heq
        simp only [List.mem_singleton] at hseg
        subst hseg
        intro hmem
        cases hmem with
        | head => exact hx rfl
        | tail _ h => exact absurd h (List.not_mem_nil 58)

/-- A non-whitespace member survives `dropWhile` of whitespace. -/
theorem mem_dropWhile_not_ws {b : Nat} (hb : isWsByte b = false) :
    ∀ l : List Nat, b ∈ l → b ∈ l.dropWhile isWsByte := by
  intro l
  induction l with
  | nil => intro h; exact absurd h (List.not_mem_nil b)
  | cons c cs ih =>
    intro h
    cases hc : isWsByte c
    · simp only [List.dropWhile, hc]
      exact h
    · simp only [List.dropWhile, hc]
      cases h with
      | head => exact absurd hc (by simp [hb])
      | tail _ h2 => exact ih h2

/-- A non-whitespace member survives trimming. -/
theorem mem_trimBytes {b : Nat} (hb : isWsByte b = false) {l : List Nat}
    (h : b ∈ l) : b ∈ trimBytes l := by
  unfold trimBytes
  rw [List.mem_reverse]
  exact mem_dropWhile_not_ws hb _ (List.mem_reverse.mpr (mem_dropWhile_not_ws hb l h))

/-- The full validation pipeline on a well-formed Basic header whose
decoded credentials are `u0 ++ ":" ++ p0` with colon-free halves:
accepted exactly when the username is `admin` and the password equals the
trimmed stored secret. -/
theorem validateAuthToken_decoded (u0 p0 : List Nat) (store : Except Unit (List Nat))
    (hbytes : ∀ b ∈ u0 ++ 58 :: p0, b < 256)
    (hu : (58 : Nat) ∉ u0) (hp : (58 : Nat) ∉ p0) :
    validateAuthToken (some ("Basic " ++ String.mk (b64Encode (u0 ++ 58 :: p0)))) store =
      (if u0 = adminBytes then
        (match getAuthPasswordFromSecrets store with
         | Except.error _ => false
         | Except.ok valid => p0 == valid)
       else false) := by
  have hne_enc : b64Encode (u0 ++ 58 :: p0) ≠ [] := b64Encode_ne_nil _ (by simp)
  have hdata : ("Basic " ++ String.mk (b64Encode (u0 ++ 58 :: p0))).data
      = 'B' :: 'a' :: 's' :: 'i' :: 'c' :: ' ' :: b64Encode (u0 ++ 58 :: p0) := by
    rw [String.data_append]
    rfl
  simp only [validateAuthToken]
  rw [if_neg (fun he => by
    have h2 := congrArg String.data he
    rw [hdata] at h2
    exact List.noConfusion h2)]
  rw [hdata, matchBasicCapture_clean _ hne_enc
        (fun c hc => (b64Encode_chars _ c hc).1)
        (fun c hc => (b64Encode_chars _ c hc).2)]
  dsimp only
  rw [b64Decode_b64Encode _ hbytes, splitOnColon_append p0 u0 hu,
      splitOnColon_no_colon p0 hp]
  simp only [List.headD, List.getElem?_cons_succ, List.getElem?_cons_zero]
  by_cases hadmin : u0 = adminBytes
  · rw [if_neg (by simp [hadmin]), if_pos hadmin]
    cases hga : getAuthPasswordFromSecrets store with
    | error e => rfl
    | ok valid => rfl
  · rw [if_pos hadmin, if_neg hadmin]

/-- Byte extraction distributes over string append. -/
theorem strBytes_append (s t : String) :
    strBytes (s ++ t) = strBytes s ++ strBytes t := by
  unfold strBytes
  rw [String.data_append, List.map_append]

/-- Byte extraction is injective. -/
theorem strBytes_inj {u v : String} (h : strBytes u = strBytes v) : u = v :=
  String.ext (List.map_injective_iff.mpr
    (fun _ _ hab => Char.eq_of_val_eq (UInt32.ext hab)) h)

/-- Credentials `admin:p` decompose around the colon byte. -/
theorem admin_colon_decomp (p : String) :
    strBytes ("admin:" ++ p) = adminBytes ++ 58 :: strBytes p := by
  rw [strBytes_append]
  rfl

/-- Credentials `u:p` decompose around the colon byte. -/
theorem user_colon_decomp (u p : String) :
    strBytes (u ++ ":" ++ p) = strBytes u ++ 58 :: strBytes p := by
  rw [strBytes_append, strBytes_append, List.append_assoc]
  rfl

/-- Bytes of ASCII credentials stay below 256. -/
theorem ascii_concat_bytes (u p : String) (hu : ∀ c ∈ u.data, c.toNat < 128)
    (hp : ∀ c ∈ p.data, c.toNat < 128) :
    ∀ b ∈ strBytes u ++ 58 :: strBytes p, b < 256 := by
  intro b hb
  rcases List.mem_append.mp hb with h1 | h2
  · rcases List.mem_map.mp h1 with ⟨c, hc, rfl⟩
    have := hu c hc
    omega
  · rcases List.mem_cons.mp h2 with rfl | h3
    · omega
    · rcases List.mem_map.mp h3 with ⟨c, hc, rfl⟩
      have := hp c hc
      omega

/-- C10: when the stored secret contains a colon, validation rejects every
header — the compared password is always a colon-free split segment. -/
theorem claim_C10_colon_secret_rejects (store : Except Unit (List Nat))
    (raw : List Nat) (hstore : store = Except.ok raw)
    (hcolon : (58 : Nat) ∈ raw) :
    ∀ h : Option String, validateAuthToken h store = false := by
  subst hstore
  intro hOpt
  cases hOpt with
  | none => rfl
  | some h =>
    simp only [validateAuthToken]
    split
    · rfl
    · split
      · rfl
      · rename_i enc heq
        split
        · rfl
        · simp only [getAuthPasswordFromSecrets]
          rw [if_neg (fun hr => by
            subst hr
            exact absurd hcolon (List.not_mem_nil 58))]
          dsimp only
          cases hp : (splitOnColon (b64Decode enc))[1]? with
          | none => rfl
          | some seg =>
            have hseg : seg ∈ splitOnColon (b64Decode enc) :=
              List.getElem?_mem hp
            have h58 : (58 : Nat) ∉ seg := mem_splitOnColon_no_colon _ seg hseg
            have hvt : (58 : Nat) ∈ trimBytes raw := mem_trimBytes (by decide) hcolon
            have hne2 : seg ≠ trimBytes raw := fun he => h58 (he.symm ▸ hvt)
            simp [hne2]

/-- Witness for C10: secret `a:b`, the matching well-formed header. -/
theorem claim_C10_witness :
    validateAuthToken (some (basicHeaderFor "a:b"))
      (Except.ok (strBytes "a:b")) = false :=
  claim_C10_colon_secret_rejects (Except.ok (strBytes "a:b")) (strBytes "a:b")
    rfl (by decide) (some (basicHeaderFor "a:b"))

/-- C4 counterexample: the stored secret `a:b` is already trimmed, the
header carries exactly `Basic base64("admin:" ++ "a:b")`, yet validation
returns false — the claim's unconditional acceptance clause fails. -/
theorem claim_C4_counterexample :
    trimBytes (strBytes "a:b") = strBytes "a:b" ∧
    validateAuthToken (some (basicHeaderFor "a:b"))
      (Except.ok (strBytes "a:b")) = false := by
  constructor
  · decide
  · decide

/-- C4 amended: validation never raises and returns false for a missing
header, a non-Basic scheme, a secret-store failure, a wrong username or a
wrong password; and it returns true when the header is
`Basic base64("admin:" ++ p)` with p free of colons and equal to the
stored secret after trimming. -/
theorem claim_C4_validate_contract :
    (∀ store, validateAuthToken none store = false) ∧
    (∀ store, validateAuthToken (some "Bearer x") store = false) ∧
    (∀ h, validateAuthToken h (Except.error ()) = false) ∧
    (∀ (u p : String) (store : Except Unit (List Nat)),
      (∀ c ∈ u.data, c.toNat < 128) → (∀ c ∈ p.data, c.toNat < 128) →
      (58 : Nat) ∉ strBytes u → (58 : Nat) ∉ strBytes p → u ≠ "admin" →
      validateAuthToken
        (some ("Basic " ++ String.mk (b64Encode (strBytes (u ++ ":" ++ p)))))
        store = false) ∧
    (∀ (p : String) (raw : List Nat),
      (∀ c ∈ p.data, c.toNat < 128) → (58 : Nat) ∉ strBytes p →
      strBytes p ≠ trimBytes raw →
      validateAuthToken (some (basicHeaderFor p)) (Except.ok raw) = false) ∧
    (∀ (p : String) (raw : List Nat),
      (∀ c ∈ p.data, c.toNat < 128) → (58 : Nat) ∉ strBytes p →
      raw ≠ [] → strBytes p = trimBytes raw →
      validateAuthToken (some (basicHeaderFor p)) (Except.ok raw) = true) := by
  refine ⟨fun _ => rfl, fun _ => rfl, ?_, ?_, ?_, ?_⟩
  · intro h
    cases h with
    | none => rfl
    | some s =>
      simp only [validateAuthToken]
      split
      · rfl
      · split
        · rfl
        · split
          · rfl
          · rfl
  · intro u p store hu128 hp128 hucol hpcol hune
    rw [user_colon_decomp u p,
        validateAuthToken_decoded (strBytes u) (strBytes p) store
          (ascii_concat_bytes u p hu128 hp128) hucol hpcol]
    rw [if_neg (show ¬(strBytes u = adminBytes) from
      fun he => hune (strBytes_inj he))]
  · intro p raw hp128 hpcol hne
    simp only [basicHeaderFor]
    rw [admin_colon_decomp p,
        validateAuthToken_decoded adminBytes (strBytes p) (Except.ok raw)
          (ascii_concat_bytes "admin" p (by decide) hp128) (by decide) hpcol]
    rw [if_pos rfl]
    simp only [getAuthPasswordFromSecrets]
    by_cases hr : raw = []
    · rw [if_pos hr]
    · rw [if_neg hr]
      dsimp only
      simp [hne]
  · intro p raw hp128 hpcol hrne heq
    simp only [basicHeaderFor]
    rw [admin_colon_decomp p,
        validateAuthToken_decoded adminBytes (strBytes p) (Except.ok raw)
          (ascii_concat_bytes "admin" p (by decide) hp128) (by decide) hpcol]
    rw [if_pos rfl]
    simp only [getAuthPasswordFromSecrets]
    rw [if_neg hrne]
    dsimp only
    simp [heq]

/-- Witness for the amended C4: acceptance with a whitespace-padded stored
secret, rejection of a Bearer header. -/
theorem claim_C4_witness :
    validateAuthToken (some (basicHeaderFor "correct"))
      (Except.ok (strBytes "  correct  ")) = true ∧
    validateAuthToken (some "Bearer x")
      (Except.ok (strBytes "correct")) = false :=
  ⟨claim_C4_validate_contract.2.2.2.2.2 "correct" (strBytes "  correct  ")
      (by decide) (by decide) (by decide) (by decide),
   claim_C4_validate_contract.2.1 (Except.ok (strBytes "correct"))⟩

end OpenAIMcp
